import Mathlib

/-!
A shallow embedding, in Lean 4, of the ComfyUI client found in
`src/comfyui/comfyui.py`, together with theorems settling the behavioural
claims about its accessors, job submission, job query and output extraction.

Python dictionaries are embedded as association lists (`List (String × α)`),
which preserves the insertion/enumeration order that the code relies on.
Exceptions become `Except PyErr`; a raised exception carries no state change,
so a setter that fails is embedded as a function returning `.error` and the
caller keeps the unmodified workflow.  Network effects (`httpx` calls) are
abstracted: the bytes returned by `download_output` become an arbitrary
function parameter, and `get_job_outputs` additionally records the list of
download requests it issues so that "performs no download" is observable.
-/

/-- Python exceptions raised by the client: `ValueError` (invalid argument)
and `KeyError` (missing key / not found), each with its message. -/
inductive PyErr : Type where
  | valueError (msg : String) : PyErr
  | keyError (msg : String) : PyErr
deriving DecidableEq, Repr

/-- JSON scalar values stored in workflow node inputs: the client writes
integers (width, height, seed) and strings (prompt text). -/
inductive PyVal : Type where
  | int (n : Int) : PyVal
  | str (s : String) : PyVal
deriving DecidableEq, Repr

/-- `d[k]` lookup on a Python dict embedded as an association list:
`some` of the first binding for `k`, or `none` when the key is absent. -/
def dictGet? {α : Type} (d : List (String × α)) (k : String) : Option α :=
  match d with
  | [] => none
  | (k', v) :: t => if k' = k then some v else dictGet? t k

/-- `d[k] = v` assignment on a Python dict embedded as an association list:
overwrites in place when `k` is present, appends at the end otherwise
(matching the insertion-order semantics of Python dicts). -/
def dictSet {α : Type} (d : List (String × α)) (k : String) (v : α) :
    List (String × α) :=
  match d with
  | [] => [(k, v)]
  | (k', v') :: t => if k' = k then (k, v) :: t else (k', v') :: dictSet t k v

/-- A workflow node, keeping only the `"inputs"` mapping, which is the sole
part of a node the client reads or writes (`workflow[idx]["inputs"][field]`). -/
structure Node where
  inputs : List (String × PyVal)
deriving DecidableEq, Repr

/-- The job template `self.workflow`: a Python dict from stringified node
indices to nodes. -/
abbrev Workflow := List (String × Node)

/-- Reading `self.workflow[idx]["inputs"][field]`: `KeyError` when the node
index or the field is absent, mirroring Python subscript semantics. -/
def getPath (w : Workflow) (idx field : String) : Except PyErr PyVal :=
  match dictGet? w idx with
  | none => .error (.keyError idx)
  | some node =>
      match dictGet? node.inputs field with
      | none => .error (.keyError field)
      | some v => .ok v

/-- Writing `self.workflow[idx]["inputs"][field] = v`: `KeyError` when the
node index is absent; otherwise the field is overwritten or inserted. -/
def setPath (w : Workflow) (idx field : String) (v : PyVal) :
    Except PyErr Workflow :=
  match dictGet? w idx with
  | none => .error (.keyError idx)
  | some node => .ok (dictSet w idx ⟨dictSet node.inputs field v⟩)

/-- Modelled from the spec: `EMPTY_INDEX`, the reserved node index of the
image-dimensions node, comes from `default_workflow.py`, which is not in the
source tree; the spec only requires it to be a stringified node index
distinct from the other reserved indices. -/
def EMPTY_INDEX : String := "5"

/-- Modelled from the spec: `KSAMPLER_INDEX`, the reserved node index of the
sampler-seed node, from the missing `default_workflow.py`. -/
def KSAMPLER_INDEX : String := "3"

/-- Modelled from the spec: `POSITIVE_PROMPT_INDEX`, the reserved node index
of the positive prompt-text node, from the missing `default_workflow.py`. -/
def POSITIVE_PROMPT_INDEX : String := "6"

/-- Modelled from the spec: `NEGATIVE_PROMPT_INDEX`, the reserved node index
of the negative prompt-text node, from the missing `default_workflow.py`. -/
def NEGATIVE_PROMPT_INDEX : String := "7"

/-- Modelled from the spec: the parsed `DEFAULT_WORKFLOW_TEXT` of the missing
`default_workflow.py` — a mapping from stringified node indices to node
objects, each with an `inputs` mapping, with the reserved indices carrying
image dimensions, sampler seed and the two prompt-text fields. -/
def DEFAULT_WORKFLOW : Workflow :=
  [ (KSAMPLER_INDEX, ⟨[("seed", .int 1)]⟩),
    (EMPTY_INDEX, ⟨[("width", .int 512), ("height", .int 512)]⟩),
    (POSITIVE_PROMPT_INDEX, ⟨[("text", .str "A photograph of a cat.")]⟩),
    (NEGATIVE_PROMPT_INDEX, ⟨[("text", .str "")]⟩) ]

/-- The `width` property getter. -/
def width_get (w : Workflow) : Except PyErr PyVal :=
  getPath w EMPTY_INDEX "width"

/-- The `width` property setter: accepts `value > 0`, otherwise raises
`ValueError`. -/
def width_set (w : Workflow) (value : Int) : Except PyErr Workflow :=
  if value > 0 then setPath w EMPTY_INDEX "width" (.int value)
  else .error (.valueError
    ("ComfyUI: width must be positive: value=" ++ toString value))

/-- The `height` property getter. -/
def height_get (w : Workflow) : Except PyErr PyVal :=
  getPath w EMPTY_INDEX "height"

/-- The `height` property setter: accepts `value > 0`, otherwise raises
`ValueError`. -/
def height_set (w : Workflow) (value : Int) : Except PyErr Workflow :=
  if value > 0 then setPath w EMPTY_INDEX "height" (.int value)
  else .error (.valueError
    ("ComfyUI: height must be positive: value=" ++ toString value))

/-- The `seed` property getter. -/
def seed_get (w : Workflow) : Except PyErr PyVal :=
  getPath w KSAMPLER_INDEX "seed"

/-- The `seed` property setter: accepts `value > 0`, otherwise raises
`ValueError`. -/
def seed_set (w : Workflow) (value : Int) : Except PyErr Workflow :=
  if value > 0 then setPath w KSAMPLER_INDEX "seed" (.int value)
  else .error (.valueError
    ("ComfyUI: seed must be positive: value=" ++ toString value))

/-- The characters `str.strip()` treats as whitespace, i.e. those on which
`str.isspace()` holds: space, the ASCII control whitespace `\t \n \v \f \r`
and `\x1c`-`\x1f`, next line `\x85`, no-break space `\xa0`, and the Unicode
space characters at the codepoints 1680, 2000-200a, 2028, 2029, 202f,
205f and 3000 (hexadecimal). -/
def pyIsSpace (c : Char) : Bool :=
  let n := c.toNat
  n = 0x20 || (0x9 ≤ n && n ≤ 0xd) || (0x1c ≤ n && n ≤ 0x1f) ||
    n = 0x85 || n = 0xa0 || n = 0x1680 ||
    (0x2000 ≤ n && n ≤ 0x200a) || n = 0x2028 || n = 0x2029 ||
    n = 0x202f || n = 0x205f || n = 0x3000

/-- Truthiness test `not value.strip()`: a string is blank when every
character is whitespace (in particular the empty string is blank). -/
def pyBlank (s : String) : Bool :=
  s.toList.all pyIsSpace

/-- The `positive` property getter. -/
def positive_get (w : Workflow) : Except PyErr PyVal :=
  getPath w POSITIVE_PROMPT_INDEX "text"

/-- The `positive` property setter: accepts a string whose `strip()` is
truthy, otherwise raises `ValueError`. -/
def positive_set (w : Workflow) (value : String) : Except PyErr Workflow :=
  if pyBlank value then
    .error (.valueError "ComfyUI: positive prompt must have content")
  else setPath w POSITIVE_PROMPT_INDEX "text" (.str value)

/-- The `negative` property getter. -/
def negative_get (w : Workflow) : Except PyErr PyVal :=
  getPath w NEGATIVE_PROMPT_INDEX "text"

/-- The `negative` property setter: stores the value with no validation. -/
def negative_set (w : Workflow) (value : String) : Except PyErr Workflow :=
  setPath w NEGATIVE_PROMPT_INDEX "text" (.str value)

/-- The tail of `submit_job` after a successful (2xx) response whose body
parsed to the JSON object `response_data`:
`prompt_id = response_data.get("prompt_id", "")`, a warning is logged when
the identifier is falsy (the empty string), and `prompt_id` is returned.
The result is the returned string paired with whether a warning was logged;
no exception is raised on this path. -/
def submit_extract (response_data : List (String × String)) :
    String × Bool :=
  let prompt_id := (dictGet? response_data "prompt_id").getD ""
  (prompt_id, prompt_id == "")

/-- The tail of `query_job` after a successful (2xx) response whose body
parsed to the JSON object `history`: returns `history[prompt_id]` when
present, otherwise raises `KeyError` (with the literal, un-interpolated
message of the source). -/
def query_extract {α : Type} (prompt_id : String)
    (history : List (String × α)) : Except PyErr α :=
  match dictGet? history prompt_id with
  | some record => .ok record
  | none => .error (.keyError "prompt_id not found: \x7bprompt_id=\x7d")

/-- One `{filename, subfolder, type}` image reference inside the
`images` list of a node, each field optional (a Python dict that may lack keys). -/
structure ImageRef where
  filename : Option String
  subfolder : Option String
  ftype : Option String
deriving DecidableEq, Repr

/-- One value of the `"outputs"` mapping of a history record, keeping the
optional `"images"` list, the only key `get_job_outputs` reads. -/
structure OutputNode where
  images : Option (List ImageRef)
deriving DecidableEq, Repr

/-- A history record as consumed by `get_job_outputs`: a dict that may or
may not carry an `"outputs"` mapping from node index to node object. -/
structure History where
  outputs : Option (List (String × OutputNode))
deriving DecidableEq, Repr

/-- The first loop of `get_job_outputs`: walks `history["outputs"]` in
enumeration order and concatenates the `images` lists of the nodes that
have one (`image_dicts += ...`), skipping nodes that lack `"images"`. -/
def collectImageDicts (outs : List (String × OutputNode)) : List ImageRef :=
  outs.foldl
    (fun acc kv =>
      match kv.2.images with
      | some imgs => acc ++ imgs
      | none => acc)
    []

/-- Number of warnings logged by the first loop of `get_job_outputs`: one
per output node lacking an `"images"` key. -/
def missingImagesCount (outs : List (String × OutputNode)) : Nat :=
  (outs.filter (fun kv => kv.2.images.isNone)).length

/-- Accumulator of the second loop of `get_job_outputs`: the tuples built so
far, the warnings logged so far, and the download requests
`(filename, subfolder, folder_type)` issued so far. -/
structure GJOAcc (β : Type) where
  tuples : List (String × String × String × β)
  warnings : Nat
  calls : List (String × String × String)
deriving DecidableEq, Repr

/-- One iteration of the second loop of `get_job_outputs`:
`image_dict["filename"]` raises `KeyError` when absent, which is caught,
logged as a warning and skipped with `continue`; otherwise
`subfolder`/`type` default to `""`/`"output"` via `dict.get`, the bytes are
downloaded and the tuple `(folder_type, subfolder, filename, data)` is
appended. -/
def gjoStep {β : Type} (download : String → String → String → β)
    (acc : GJOAcc β) (d : ImageRef) : GJOAcc β :=
  match d.filename with
  | none => ⟨acc.tuples, acc.warnings + 1, acc.calls⟩
  | some filename =>
      let subfolder := d.subfolder.getD ""
      let folder_type := d.ftype.getD "output"
      ⟨acc.tuples ++
          [(folder_type, subfolder, filename,
            download filename subfolder folder_type)],
        acc.warnings,
        acc.calls ++ [(filename, subfolder, folder_type)]⟩

/-- The observable outcome of one call to `get_job_outputs`: the returned
list (or the exception raised), the warnings logged, and the download
requests issued. -/
structure GJORun (β : Type) where
  result : Except PyErr (List (String × String × String × β))
  warnings : Nat
  calls : List (String × String × String)
deriving Repr

/-- `get_job_outputs`, with the bytes-fetching effect of
`download_output(filename, subfolder, folder_type)` abstracted as the pure
function `download`: raises `ValueError` when the record has no `"outputs"`
key, otherwise collects the image references of every node in order and resolves
each one that has a filename. -/
def get_job_outputs {β : Type} (download : String → String → String → β)
    (history : History) : GJORun β :=
  match history.outputs with
  | none =>
      ⟨.error (.valueError
          "ComfyUI.get_job_outputs(): \x27outputs\x27 key not found in history."),
        0, []⟩
  | some outs =>
      let image_dicts := collectImageDicts outs
      let final :=
        image_dicts.foldl (gjoStep download) ⟨[], missingImagesCount outs, []⟩
      ⟨.ok final.tuples, final.warnings, final.calls⟩

/-- The tuple an image reference contributes to the output of
`get_job_outputs`, when it has a filename: this is the characterisation the
ordering theorems compare the loop against. -/
def imageTuple {β : Type} (download : String → String → String → β)
    (d : ImageRef) : Option (String × String × String × β) :=
  d.filename.map (fun filename =>
    (d.ftype.getD "output", d.subfolder.getD "", filename,
      download filename (d.subfolder.getD "") (d.ftype.getD "output")))

/-- The download request an image reference causes, when it has a filename. -/
def imageCall (d : ImageRef) : Option (String × String × String) :=
  d.filename.map (fun filename =>
    (filename, d.subfolder.getD "", d.ftype.getD "output"))

theorem dictGet_dictSet_same {α : Type} (d : List (String × α)) (k : String)
    (v : α) : dictGet? (dictSet d k v) k = some v := by
  induction d with
  | nil => simp [dictSet, dictGet?]
  | cons hd t ih =>
      by_cases h : hd.1 = k
      · simp [dictSet, dictGet?, h]
      · simp [dictSet, dictGet?, h, ih]

theorem getPath_setPath_same (w w' : Workflow) (idx field : String)
    (v : PyVal) (h : setPath w idx field v = .ok w') :
    getPath w' idx field = .ok v := by
  unfold setPath at h
  cases hw : dictGet? w idx with
  | none => rw [hw] at h; exact absurd h (by simp)
  | some node =>
      rw [hw] at h
      simp only [Except.ok.injEq] at h
      subst h
      unfold getPath
      rw [dictGet_dictSet_same]
      simp [dictGet_dictSet_same]

theorem setPath_isSome_ok (w : Workflow) (idx field : String) (v : PyVal)
    (h : (dictGet? w idx).isSome) :
    ∃ w', setPath w idx field v = .ok w' := by
  unfold setPath
  cases hw : dictGet? w idx with
  | none => rw [hw] at h; simp at h
  | some node => exact ⟨_, rfl⟩

theorem gjoStep_none {β : Type} (download : String → String → String → β)
    (acc : GJOAcc β) (d : ImageRef) (hf : d.filename = none) :
    gjoStep download acc d = ⟨acc.tuples, acc.warnings + 1, acc.calls⟩ := by
  unfold gjoStep
  rw [hf]

theorem gjoStep_some {β : Type} (download : String → String → String → β)
    (acc : GJOAcc β) (d : ImageRef) (f : String) (hf : d.filename = some f) :
    gjoStep download acc d =
      ⟨acc.tuples ++
          [(d.ftype.getD "output", d.subfolder.getD "", f,
            download f (d.subfolder.getD "") (d.ftype.getD "output"))],
        acc.warnings,
        acc.calls ++ [(f, d.subfolder.getD "", d.ftype.getD "output")]⟩ := by
  unfold gjoStep
  rw [hf]

theorem gjo_foldl_spec {β : Type} (download : String → String → String → β)
    (ds : List ImageRef) (acc : GJOAcc β) :
    ds.foldl (gjoStep download) acc =
      ⟨acc.tuples ++ ds.filterMap (imageTuple download),
        acc.warnings + (ds.filter (fun d => d.filename.isNone)).length,
        acc.calls ++ ds.filterMap imageCall⟩ := by
  induction ds generalizing acc with
  | nil => simp
  | cons d t ih =>
      rw [List.foldl_cons, ih]
      cases hf : d.filename with
      | none =>
          rw [gjoStep_none download acc d hf]
          have h1 : imageTuple download d = none := by simp [imageTuple, hf]
          have h2 : imageCall d = none := by simp [imageCall, hf]
          simp only [List.filterMap_cons, h1, h2, List.filter_cons, hf,
            Option.isNone_none, if_pos, List.length_cons]
          refine congrArg₂ (fun a b => GJOAcc.mk a b _) rfl ?_
          omega
      | some f =>
          rw [gjoStep_some download acc d f hf]
          have h1 : imageTuple download d =
              some (d.ftype.getD "output", d.subfolder.getD "", f,
                download f (d.subfolder.getD "") (d.ftype.getD "output")) := by
            simp [imageTuple, hf]
          have h2 : imageCall d =
              some (f, d.subfolder.getD "", d.ftype.getD "output") := by
            simp [imageCall, hf]
          simp only [List.filterMap_cons, h1, h2, List.filter_cons, hf,
            Option.isNone_some, Bool.false_eq_true, if_neg, List.append_assoc,
            List.singleton_append]
          simp

theorem collect_go (outs : List (String × OutputNode)) (acc : List ImageRef) :
    outs.foldl
        (fun acc kv =>
          match kv.2.images with
          | some imgs => acc ++ imgs
          | none => acc)
        acc = acc ++ collectImageDicts outs := by
  unfold collectImageDicts
  induction outs generalizing acc with
  | nil => simp
  | cons kv t ih =>
      rw [List.foldl_cons, List.foldl_cons]
      cases hi : kv.2.images with
      | none =>
          simp only [hi]
          exact ih acc
      | some imgs =>
          simp only [hi, List.nil_append]
          rw [ih (acc ++ imgs), ih imgs]
          simp [List.append_assoc]

theorem collect_cons (kv : String × OutputNode)
    (t : List (String × OutputNode)) :
    collectImageDicts (kv :: t) =
      (kv.2.images.getD []) ++ collectImageDicts t := by
  unfold collectImageDicts
  rw [List.foldl_cons]
  cases hi : kv.2.images with
  | none =>
      simp only [hi, Option.getD_none, List.nil_append]
  | some imgs =>
      simp only [hi, Option.getD_some, List.nil_append]
      exact collect_go t imgs

theorem collect_filter_isSome (outs : List (String × OutputNode)) :
    collectImageDicts (outs.filter (fun kv => kv.2.images.isSome)) =
      collectImageDicts outs := by
  induction outs with
  | nil => rfl
  | cons kv t ih =>
      rw [List.filter_cons]
      cases hi : kv.2.images with
      | none =>
          simp only [hi, Option.isSome_none, Bool.false_eq_true, if_false]
          rw [ih, collect_cons]
          simp [hi]
      | some imgs =>
          simp only [hi, Option.isSome_some, if_true]
          rw [collect_cons, collect_cons, ih]

theorem filterMap_imageTuple_length {β : Type}
    (download : String → String → String → β) (ds : List ImageRef) :
    (ds.filterMap (imageTuple download)).length =
      (ds.filter (fun d => d.filename.isSome)).length := by
  induction ds with
  | nil => rfl
  | cons d t ih =>
      cases hf : d.filename with
      | none => simp [List.filterMap_cons, imageTuple, hf, List.filter_cons, ih]
      | some f => simp [List.filterMap_cons, imageTuple, hf, List.filter_cons, ih]

theorem missingImagesCount_filter (outs : List (String × OutputNode)) :
    missingImagesCount (outs.filter (fun kv => kv.2.images.isSome)) = 0 := by
  induction outs with
  | nil => rfl
  | cons kv t ih =>
      rw [List.filter_cons]
      cases hi : kv.2.images with
      | none => simp [hi, ih]
      | some imgs =>
          simp only [hi, Option.isSome_some, if_true]
          unfold missingImagesCount at ih ⊢
          rw [List.filter_cons]
          simp only [hi, Option.isNone_some, Bool.false_eq_true, if_false]
          exact ih

theorem get_job_outputs_some {β : Type}
    (download : String → String → String → β)
    (outs : List (String × OutputNode)) :
    get_job_outputs download ⟨some outs⟩ =
      ⟨.ok ((collectImageDicts outs).filterMap (imageTuple download)),
        missingImagesCount outs +
          ((collectImageDicts outs).filter
            (fun d => d.filename.isNone)).length,
        (collectImageDicts outs).filterMap imageCall⟩ := by
  simp only [get_job_outputs]
  rw [gjo_foldl_spec]
  simp

/-- C1: for a history record with an outputs section, `get_job_outputs`
returns an ordered list with one tuple per image reference bearing a
filename, in enumeration order of the output nodes and of their `images`
lists, each tuple `(type, subfolder, filename, bytes)` carrying exactly the
bytes returned by the download call for that filename/subfolder/type; in
particular a record whose outputs contain exactly one image reference
`{filename: f, subfolder: s, type: t}` yields exactly the one tuple
`(t, s, f, download f s t)`. -/
theorem C1_outputs_ordered {β : Type}
    (download : String → String → String → β)
    (outs : List (String × OutputNode)) (key f s t : String) :
    (get_job_outputs download ⟨some outs⟩).result =
      .ok ((collectImageDicts outs).filterMap (imageTuple download)) ∧
    (get_job_outputs download
        ⟨some [(key, ⟨some [⟨some f, some s, some t⟩]⟩)]⟩).result =
      .ok [(t, s, f, download f s t)] := by
  constructor
  · rw [get_job_outputs_some]
  · rfl

/-- C2: on a successful submit response, a present non-empty `prompt_id` is
returned without warning; a missing or empty `prompt_id` makes `submit_job`
return the empty string and log a warning, raising no error (the extraction
is total). -/
theorem C2_submit_prompt_id (m : List (String × String)) :
    (∀ p, dictGet? m "prompt_id" = some p → p ≠ "" →
      submit_extract m = (p, false)) ∧
    (dictGet? m "prompt_id" = none → submit_extract m = ("", true)) ∧
    (dictGet? m "prompt_id" = some "" → submit_extract m = ("", true)) := by
  refine ⟨fun p hp hne => ?_, fun h => ?_, fun h => ?_⟩ <;>
    simp [submit_extract, *]

theorem C2_submit_prompt_id_w :
    submit_extract [("prompt_id", "abc123")] = ("abc123", false) ∧
    submit_extract [] = ("", true) ∧
    submit_extract [("prompt_id", "")] = ("", true) :=
  ⟨(C2_submit_prompt_id _).1 "abc123" (by decide) (by decide),
    (C2_submit_prompt_id _).2.1 (by decide),
    (C2_submit_prompt_id _).2.2 (by decide)⟩

/-- C3: `query_job` raises `KeyError` (not found) when the queried prompt
identifier is absent from the successful history response, and returns the
record stored under the identifier when it is present. -/
theorem C3_query_not_found {α : Type} (prompt_id : String)
    (history : List (String × α)) :
    (dictGet? history prompt_id = none →
      query_extract prompt_id history =
        .error (.keyError "prompt_id not found: \x7bprompt_id=\x7d")) ∧
    (∀ r, dictGet? history prompt_id = some r →
      query_extract prompt_id history = .ok r) := by
  constructor
  · intro h; simp [query_extract, h]
  · intro r h; simp [query_extract, h]

theorem C3_query_not_found_w :
    query_extract "abc123" [("xyz", (0 : Nat))] =
      .error (.keyError "prompt_id not found: \x7bprompt_id=\x7d") ∧
    query_extract "abc123" [("abc123", (7 : Nat))] = .ok 7 :=
  ⟨(C3_query_not_found "abc123" _).1 (by decide),
    (C3_query_not_found "abc123" _).2 7 (by decide)⟩

/-- C4: for positive `v`, setting width, height or seed and reading the same
field back returns `v`; for non-positive `v` the setter raises `ValueError`
and, raising instead of returning a new workflow, leaves the workflow held by the caller unchanged. -/
theorem C4_dimension_seed_setters (w : Workflow) (v : Int) :
    (0 < v → (dictGet? w EMPTY_INDEX).isSome →
      ∃ w', width_set w v = .ok w' ∧ width_get w' = .ok (.int v)) ∧
    (0 < v → (dictGet? w EMPTY_INDEX).isSome →
      ∃ w', height_set w v = .ok w' ∧ height_get w' = .ok (.int v)) ∧
    (0 < v → (dictGet? w KSAMPLER_INDEX).isSome →
      ∃ w', seed_set w v = .ok w' ∧ seed_get w' = .ok (.int v)) ∧
    (v ≤ 0 →
      width_set w v = .error (.valueError
        ("ComfyUI: width must be positive: value=" ++ toString v)) ∧
      height_set w v = .error (.valueError
        ("ComfyUI: height must be positive: value=" ++ toString v)) ∧
      seed_set w v = .error (.valueError
        ("ComfyUI: seed must be positive: value=" ++ toString v))) := by
  refine ⟨?_, ?_, ?_, ?_⟩
  · intro hv hw
    obtain ⟨w', hw'⟩ := setPath_isSome_ok w EMPTY_INDEX "width" (.int v) hw
    exact ⟨w', by simp [width_set, hv, hw'],
      getPath_setPath_same w w' _ _ _ hw'⟩
  · intro hv hw
    obtain ⟨w', hw'⟩ := setPath_isSome_ok w EMPTY_INDEX "height" (.int v) hw
    exact ⟨w', by simp [height_set, hv, hw'],
      getPath_setPath_same w w' _ _ _ hw'⟩
  · intro hv hw
    obtain ⟨w', hw'⟩ := setPath_isSome_ok w KSAMPLER_INDEX "seed" (.int v) hw
    exact ⟨w', by simp [seed_set, hv, hw'],
      getPath_setPath_same w w' _ _ _ hw'⟩
  · intro hv
    have hnv : ¬ v > 0 := by omega
    exact ⟨by simp [width_set, hnv], by simp [height_set, hnv],
      by simp [seed_set, hnv]⟩

theorem C4_dimension_seed_setters_w :
    (∃ w', width_set DEFAULT_WORKFLOW 3 = .ok w' ∧
      width_get w' = .ok (.int 3)) ∧
    (∃ w', height_set DEFAULT_WORKFLOW 3 = .ok w' ∧
      height_get w' = .ok (.int 3)) ∧
    (∃ w', seed_set DEFAULT_WORKFLOW 3 = .ok w' ∧
      seed_get w' = .ok (.int 3)) ∧
    (width_set DEFAULT_WORKFLOW 0 = .error (.valueError
        ("ComfyUI: width must be positive: value=" ++ toString (0 : Int))) ∧
      height_set DEFAULT_WORKFLOW 0 = .error (.valueError
        ("ComfyUI: height must be positive: value=" ++ toString (0 : Int))) ∧
      seed_set DEFAULT_WORKFLOW 0 = .error (.valueError
        ("ComfyUI: seed must be positive: value=" ++ toString (0 : Int)))) :=
  ⟨(C4_dimension_seed_setters DEFAULT_WORKFLOW 3).1 (by decide) (by decide),
    (C4_dimension_seed_setters DEFAULT_WORKFLOW 3).2.1 (by decide) (by decide),
    (C4_dimension_seed_setters DEFAULT_WORKFLOW 3).2.2.1 (by decide)
      (by decide),
    (C4_dimension_seed_setters DEFAULT_WORKFLOW 0).2.2.2 (by decide)⟩

/-- C5: setting the positive prompt to a string with at least one
non-whitespace character and reading it back returns the same string; a
blank (empty or whitespace-only) string makes the setter raise `ValueError`
and, raising instead of returning a new workflow, leaves the stored prompt
unchanged. -/
theorem C5_positive_setter (w : Workflow) (s : String) :
    (pyBlank s = false → (dictGet? w POSITIVE_PROMPT_INDEX).isSome →
      ∃ w', positive_set w s = .ok w' ∧ positive_get w' = .ok (.str s)) ∧
    (pyBlank s = true →
      positive_set w s =
        .error (.valueError "ComfyUI: positive prompt must have content")) := by
  constructor
  · intro hb hw
    obtain ⟨w', hw'⟩ :=
      setPath_isSome_ok w POSITIVE_PROMPT_INDEX "text" (.str s) hw
    exact ⟨w', by simp [positive_set, hb, hw'],
      getPath_setPath_same w w' _ _ _ hw'⟩
  · intro hb
    simp [positive_set, hb]

theorem C5_positive_setter_w :
    (∃ w', positive_set DEFAULT_WORKFLOW "A dog." = .ok w' ∧
      positive_get w' = .ok (.str "A dog.")) ∧
    positive_set DEFAULT_WORKFLOW "  " =
      .error (.valueError "ComfyUI: positive prompt must have content") :=
  ⟨(C5_positive_setter DEFAULT_WORKFLOW "A dog.").1 (by decide) (by decide),
    (C5_positive_setter DEFAULT_WORKFLOW "  ").2 (by decide)⟩

/-- C6: a history record with no outputs section makes `get_job_outputs`
raise `ValueError`, with no warning logged and no download request issued. -/
theorem C6_no_outputs_error {β : Type}
    (download : String → String → String → β) :
    get_job_outputs download ⟨none⟩ =
      ⟨.error (.valueError
          "ComfyUI.get_job_outputs(): \x27outputs\x27 key not found in history."),
        0, []⟩ := rfl

/-- C7: when some collected image reference lacks a filename,
`get_job_outputs` still succeeds, returns exactly one tuple per reference
that has a filename, and logs at least one warning beyond those for nodes
lacking an images list. -/
theorem C7_skip_missing_filename {β : Type}
    (download : String → String → String → β)
    (outs : List (String × OutputNode))
    (h : ∃ d ∈ collectImageDicts outs, d.filename = none) :
    ∃ l, (get_job_outputs download ⟨some outs⟩).result = .ok l ∧
      l.length =
        ((collectImageDicts outs).filter
          (fun d => d.filename.isSome)).length ∧
      missingImagesCount outs + 1 ≤
        (get_job_outputs download ⟨some outs⟩).warnings := by
  refine ⟨(collectImageDicts outs).filterMap (imageTuple download), ?_, ?_, ?_⟩
  · rw [get_job_outputs_some]
  · exact filterMap_imageTuple_length download _
  · rw [get_job_outputs_some]
    obtain ⟨d, hd, hf⟩ := h
    have hmem : d ∈ (collectImageDicts outs).filter
        (fun d => d.filename.isNone) :=
      List.mem_filter.mpr ⟨hd, by simp [hf]⟩
    have hpos := List.length_pos_of_mem hmem
    simp only []
    omega

theorem C7_skip_missing_filename_w :
    ∃ l, (get_job_outputs (fun f s t => f ++ s ++ t)
        ⟨some [("9", ⟨some [⟨none, none, none⟩,
          ⟨some "a.png", some "", some "output"⟩]⟩)]⟩).result = .ok l ∧
      l.length =
        ((collectImageDicts [("9", ⟨some [⟨none, none, none⟩,
          ⟨some "a.png", some "", some "output"⟩]⟩)]).filter
          (fun d => d.filename.isSome)).length ∧
      missingImagesCount [("9", ⟨some [⟨none, none, none⟩,
          ⟨some "a.png", some "", some "output"⟩]⟩)] + 1 ≤
        (get_job_outputs (fun f s t => f ++ s ++ t)
          ⟨some [("9", ⟨some [⟨none, none, none⟩,
            ⟨some "a.png", some "", some "output"⟩]⟩)]⟩).warnings :=
  C7_skip_missing_filename (fun f s t => f ++ s ++ t) _
    ⟨⟨none, none, none⟩, by decide, rfl⟩

/-- C8: the negative prompt setter performs no validation: any string,
including the empty and whitespace-only strings, is stored without error
and read back unchanged. -/
theorem C8_negative_setter (w : Workflow) (s : String)
    (h : (dictGet? w NEGATIVE_PROMPT_INDEX).isSome) :
    ∃ w', negative_set w s = .ok w' ∧ negative_get w' = .ok (.str s) := by
  obtain ⟨w', hw'⟩ :=
    setPath_isSome_ok w NEGATIVE_PROMPT_INDEX "text" (.str s) h
  exact ⟨w', hw', getPath_setPath_same w w' _ _ _ hw'⟩

theorem C8_negative_setter_w :
    ∃ w', negative_set DEFAULT_WORKFLOW "" = .ok w' ∧
      negative_get w' = .ok (.str "") :=
  C8_negative_setter DEFAULT_WORKFLOW "" (by decide)

/-- C9: output nodes lacking an `images` key are skipped with one logged
warning each and never make `get_job_outputs` fail: the returned list is
the one obtained from the record with those nodes removed, and the warning
count exceeds the count for that record by exactly the number of removed nodes. -/
theorem C9_skip_missing_images {β : Type}
    (download : String → String → String → β)
    (outs : List (String × OutputNode)) :
    (get_job_outputs download ⟨some outs⟩).result =
      (get_job_outputs download
        ⟨some (outs.filter (fun kv => kv.2.images.isSome))⟩).result ∧
    (∃ l, (get_job_outputs download ⟨some outs⟩).result = .ok l) ∧
    (get_job_outputs download ⟨some outs⟩).warnings =
      missingImagesCount outs +
        (get_job_outputs download
          ⟨some (outs.filter (fun kv => kv.2.images.isSome))⟩).warnings := by
  rw [get_job_outputs_some, get_job_outputs_some, collect_filter_isSome,
    missingImagesCount_filter]
  exact ⟨rfl, ⟨_, rfl⟩, by simp⟩

/-- C10: an image reference carrying a filename but lacking the subfolder
or type key does not make `get_job_outputs` fail: both the returned tuple
and the download request substitute the empty string for a missing
subfolder and the string "output" for a missing type. -/
theorem C10_default_subfolder_type {β : Type}
    (download : String → String → String → β) (key f s t : String) :
    get_job_outputs download ⟨some [(key, ⟨some [⟨some f, none, none⟩]⟩)]⟩ =
      ⟨.ok [("output", "", f, download f "" "output")], 0,
        [(f, "", "output")]⟩ ∧
    get_job_outputs download
        ⟨some [(key, ⟨some [⟨some f, some s, none⟩]⟩)]⟩ =
      ⟨.ok [("output", s, f, download f s "output")], 0,
        [(f, s, "output")]⟩ ∧
    get_job_outputs download
        ⟨some [(key, ⟨some [⟨some f, none, some t⟩]⟩)]⟩ =
      ⟨.ok [(t, "", f, download f "" t)], 0, [(f, "", t)]⟩ :=
  ⟨rfl, rfl, rfl⟩
